import Mathlib

/-!
Shallow embedding, in Lean 4, of the nimsforest docker-compose hosting layer:
the compose topology data model (dockerwrapper.go), the compose-file serializer
(compose_generator.go, generateComposeContent) and the stateful
DockerComposeProvider (docker_compose_provider source file).

Go maps are embedded as association lists with a fixed iteration order
(the spec and the claims impose a fixed total order on service names and
environment keys); Go's unordered iteration is thereby determinized.
External effects (the docker / docker-compose CLI and the staging of the
generated compose file) are embedded as an explicit environment record, and
every operation additionally returns the list of external events it performed,
so that properties about the absence of I/O are statable.
-/

/-- PortMapping defines how ports are mapped from host to container
(dockerwrapper.go). Go ints are embedded as Int. -/
structure PortMapping where
  hostPort : Int
  containerPort : Int
  protocol : String
deriving Repr, DecidableEq

/-- VolumeMapping defines how volumes are mapped (dockerwrapper.go). -/
structure VolumeMapping where
  hostPath : String
  containerPath : String
deriving Repr, DecidableEq

/-- ResourceLimits defines container resource constraints (dockerwrapper.go). -/
structure ResourceLimits where
  memory : String
  cpuShare : String
deriving Repr, DecidableEq

/-- ServiceConfig contains configuration for a single Docker service
(dockerwrapper.go). The Environment map is an association list in a fixed
key order. -/
structure ServiceConfig where
  imageName : String
  imageTag : String
  exposedPorts : List PortMapping
  environment : List (String × String)
  volumes : List VolumeMapping
  dependsOn : List String
  restartPolicy : String
  resources : ResourceLimits
deriving Repr, DecidableEq

/-- ComposeConfig represents the configuration for multiple Docker services
(dockerwrapper.go). Services is an association list in a fixed name order. -/
structure ComposeConfig where
  services : List (String × ServiceConfig)
  network : String
  projectName : String
  envFile : String
deriving Repr, DecidableEq

/-- One `- "host:container/proto"` ports entry
(compose_generator.go line 56). -/
def portLine (port : PortMapping) : String :=
  "      - \"" ++ toString port.hostPort ++ ":" ++ toString port.containerPort
    ++ "/" ++ port.protocol ++ "\"\n"

/-- One `- host:container` volumes entry (compose_generator.go line 64). -/
def volumeLine (volume : VolumeMapping) : String :=
  "      - " ++ volume.hostPath ++ ":" ++ volume.containerPath ++ "\n"

/-- One `- KEY=VALUE` environment entry (compose_generator.go line 72). -/
def envLine (kv : String × String) : String :=
  "      - " ++ kv.1 ++ "=" ++ kv.2 ++ "\n"

/-- One `- name` depends_on entry (compose_generator.go line 80). -/
def depLine (dep : String) : String :=
  "      - " ++ dep ++ "\n"

/-- The text emitted for one service inside the services section: the loop
body of generateComposeContent (compose_generator.go lines 43-96). -/
def serviceBlock (serviceName : String) (sc : ServiceConfig) : String :=
  "  " ++ serviceName ++ ":\n"
    ++ "    image: " ++ sc.imageName ++ ":" ++ sc.imageTag ++ "\n"
    ++ (if sc.restartPolicy = "" then ""
        else "    restart: " ++ sc.restartPolicy ++ "\n")
    ++ (if sc.exposedPorts.length > 0 then
          "    ports:\n" ++ String.join (sc.exposedPorts.map portLine)
        else "")
    ++ (if sc.volumes.length > 0 then
          "    volumes:\n" ++ String.join (sc.volumes.map volumeLine)
        else "")
    ++ (if sc.environment.length > 0 then
          "    environment:\n" ++ String.join (sc.environment.map envLine)
        else "")
    ++ (if sc.dependsOn.length > 0 then
          "    depends_on:\n" ++ String.join (sc.dependsOn.map depLine)
        else "")
    ++ (if sc.resources.memory ≠ "" ∨ sc.resources.cpuShare ≠ "" then
          "    deploy:\n      resources:\n        limits:\n"
            ++ (if sc.resources.memory ≠ "" then
                  "          memory: " ++ sc.resources.memory ++ "\n" else "")
            ++ (if sc.resources.cpuShare ≠ "" then
                  "          cpus: " ++ sc.resources.cpuShare ++ "\n" else "")
        else "")

/-- The version header plus the services section of the generated compose
text (compose_generator.go lines 39-96). -/
def composeMain (config : ComposeConfig) : String :=
  "version: \"3.4\"\n\n" ++ "services:\n"
    ++ String.join (config.services.map (fun e => serviceBlock e.1 e.2))

/-- The trailing networks section, emitted only when a network is specified
(compose_generator.go lines 98-103). -/
def networkBlock (config : ComposeConfig) : String :=
  if config.network = "" then ""
  else "\nnetworks:\n  " ++ config.network ++ ":\n    driver: bridge\n"

/-- generateComposeContent creates the content for a docker-compose.yml file
(compose_generator.go lines 35-106). The Go function has an error return but
every path returns a nil error, which the embedding keeps as an Except that
is always ok. -/
def generateComposeContent (config : ComposeConfig) : Except String String :=
  Except.ok (composeMain config ++ networkBlock config)

/-- An invocation of the external container orchestration CLI, identified by
the argument shape used in the source (docker-compose up/down/ps, docker
inspect/logs). -/
inductive Cmd where
  | composeUp (projectName : String) (composeFile : String)
  | composeDown (projectName : String) (composeFile : String)
  | composePs (projectName : String) (serviceName : String)
  | inspect (containerID : String)
  | logs (containerID : String)
deriving Repr, DecidableEq

/-- Result of one external CLI invocation: its combined output and whether it
exited successfully (err == nil in Go). -/
structure CmdResult where
  output : String
  exitOk : Bool
deriving Repr, DecidableEq

/-- An observable external effect performed by a provider operation: staging
the generated compose file (generateComposeFile: temp dir plus file write),
or running one external CLI command. -/
inductive Event where
  | staged (config : ComposeConfig)
  | ran (c : Cmd)
deriving Repr, DecidableEq

/-- The external world the provider interacts with: the filesystem staging
step (generateComposeFile, which can fail with an I/O error or return the
path of the staged compose file) and the CLI (one result per command). -/
structure Env where
  stage : ComposeConfig → Except String String
  run : Cmd → CmdResult

/-- The mutable fields of DockerComposeProvider (config, initialized,
containers). The sync.RWMutex has no observable content in a sequential
embedding and is dropped. -/
structure ProviderState where
  config : ComposeConfig
  initialized : Bool
  containers : List (String × String)
deriving Repr, DecidableEq

/-- NewDockerComposeProvider creates a new provider with an empty container
map, a zero-value config and initialized == false. -/
def newDockerComposeProvider : ProviderState :=
  { config := { services := [], network := "", projectName := "", envFile := "" }
    initialized := false
    containers := [] }

/-- The outcome of one provider operation: its return value or error, the
provider state afterwards, and the external events performed. -/
structure StepResult (α : Type) where
  res : Except String α
  state : ProviderState
  trace : List Event
deriving Repr

/-- Go's strings.TrimSpace over the character list: drop leading and
trailing whitespace. Embedded by structural recursion so that concrete
invocations reduce inside the kernel. -/
def trimSpace (s : String) : String :=
  ⟨(((s.data.dropWhile Char.isWhitespace).reverse).dropWhile Char.isWhitespace).reverse⟩

/-- The outcome of one `docker-compose ps -q service` query as used by
updateContainerIDs: none when the command fails or its trimmed output is
empty, otherwise the trimmed container ID. -/
def psResult (config : ComposeConfig) (env : Env) (serviceName : String) : Option String :=
  if (env.run (Cmd.composePs config.projectName serviceName)).exitOk = false then none
  else if trimSpace (env.run (Cmd.composePs config.projectName serviceName)).output = "" then none
  else some (trimSpace (env.run (Cmd.composePs config.projectName serviceName)).output)

/-- The fresh container map built by updateContainerIDs (part_000 lines
203-220): one entry per declared service whose ps query succeeded with a
non-empty trimmed ID; failed or empty queries are skipped. -/
def refreshContainers (config : ComposeConfig) (env : Env) : List (String × String) :=
  config.services.filterMap
    (fun e => (psResult config env e.1).map (fun cid => (e.1, cid)))

/-- updateContainerIDs refreshes the container IDs for all services
(part_000 lines 198-227): it runs one ps query per declared service, fully
replaces the containers map, and returns nil on every path. -/
def DockerComposeProvider.updateContainerIDs (p : ProviderState) (env : Env) :
    Except String Unit × ProviderState × List Event :=
  (Except.ok (),
   { p with containers := refreshContainers p.config env },
   p.config.services.map (fun e => Event.ran (Cmd.composePs p.config.projectName e.1)))

/-- Initialize stores the topology and marks the provider initialized
(part_000 lines 29-36); it touches no other field and performs no I/O. The
Go method name is Initialize; it is shortened here to Init. -/
def DockerComposeProvider.Init (p : ProviderState) (config : ComposeConfig) :
    Except String Unit × ProviderState :=
  (Except.ok (), { p with config := config, initialized := true })

/-- Start (part_000 lines 39-63): requires initialized, stages the compose
file, runs `docker-compose up -d`, and on success refreshes the container
IDs. -/
def DockerComposeProvider.Start (p : ProviderState) (env : Env) : StepResult Unit :=
  if p.initialized = false then
    { res := Except.error "provider not initialized", state := p, trace := [] }
  else
    match env.stage p.config with
    | Except.error e =>
      { res := Except.error ("failed to generate compose file: " ++ e)
        state := p, trace := [Event.staged p.config] }
    | Except.ok composeFile =>
      let r := env.run (Cmd.composeUp p.config.projectName composeFile)
      if r.exitOk = false then
        { res := Except.error ("failed to start containers: " ++ r.output)
          state := p
          trace := [Event.staged p.config,
                    Event.ran (Cmd.composeUp p.config.projectName composeFile)] }
      else
        let u := DockerComposeProvider.updateContainerIDs p env
        { res := u.1.map (fun _ => ())
          state := u.2.1
          trace := [Event.staged p.config,
                    Event.ran (Cmd.composeUp p.config.projectName composeFile)] ++ u.2.2 }

/-- Stop (part_000 lines 66-93): requires initialized, stages the compose
file, runs `docker-compose down`, and on success replaces the containers map
with an empty one. -/
def DockerComposeProvider.Stop (p : ProviderState) (env : Env) : StepResult Unit :=
  if p.initialized = false then
    { res := Except.error "provider not initialized", state := p, trace := [] }
  else
    match env.stage p.config with
    | Except.error e =>
      { res := Except.error ("failed to generate compose file: " ++ e)
        state := p, trace := [Event.staged p.config] }
    | Except.ok composeFile =>
      let r := env.run (Cmd.composeDown p.config.projectName composeFile)
      if r.exitOk = false then
        { res := Except.error ("failed to stop containers: " ++ r.output)
          state := p
          trace := [Event.staged p.config,
                    Event.ran (Cmd.composeDown p.config.projectName composeFile)] }
      else
        { res := Except.ok ()
          state := { p with containers := [] }
          trace := [Event.staged p.config,
                    Event.ran (Cmd.composeDown p.config.projectName composeFile)] }

/-- The status string Status computes for one cached container ID via
`docker inspect --format` (part_000 lines 121-129): the sentinel "error" on
a failed invocation, otherwise the trimmed output. -/
def inspectStatus (env : Env) (containerID : String) : String :=
  if (env.run (Cmd.inspect containerID)).exitOk = false then "error"
  else trimSpace (env.run (Cmd.inspect containerID)).output

/-- The statuses map Status builds (part_000 lines 113-130), one entry per
declared service: "not_found" for a service absent from the refreshed cache,
otherwise the result of inspecting its cached container ID. -/
def statusEntries (config : ComposeConfig) (env : Env) : List (String × String) :=
  config.services.map (fun e =>
    (e.1, match List.lookup e.1 (refreshContainers config env) with
          | none => "not_found"
          | some cid => inspectStatus env cid))

/-- The inspect invocations the Status loop performs: one per declared
service that has an entry in the refreshed cache. -/
def inspectEvents (config : ComposeConfig) (env : Env) : List Event :=
  config.services.filterMap (fun e =>
    (List.lookup e.1 (refreshContainers config env)).map
      (fun cid => Event.ran (Cmd.inspect cid)))

/-- Status (part_000 lines 96-133): requires initialized, refreshes the
container IDs, then reports one status string per declared service:
"not_found" when the service is absent from the refreshed cache, "error"
when its inspect invocation fails, the inspected state otherwise. -/
def DockerComposeProvider.Status (p : ProviderState) (env : Env) :
    StepResult (List (String × String)) :=
  if p.initialized = false then
    { res := Except.error "provider not initialized", state := p, trace := [] }
  else
    let u := DockerComposeProvider.updateContainerIDs p env
    match u.1 with
    | Except.error e => { res := Except.error e, state := u.2.1, trace := u.2.2 }
    | Except.ok _ =>
      { res := Except.ok (statusEntries p.config env)
        state := u.2.1
        trace := u.2.2 ++ inspectEvents p.config env }

/-- GetLogs (part_000 lines 136-170): requires initialized and a declared
service, refreshes the container IDs, then runs `docker logs` on the cached
ID, failing when no ID is cached for the service. -/
def DockerComposeProvider.GetLogs (p : ProviderState) (env : Env)
    (serviceName : String) : StepResult String :=
  if p.initialized = false then
    { res := Except.error "provider not initialized", state := p, trace := [] }
  else if (List.lookup serviceName p.config.services).isNone then
    { res := Except.error ("service " ++ serviceName ++ " not found")
      state := p, trace := [] }
  else
    let u := DockerComposeProvider.updateContainerIDs p env
    match u.1 with
    | Except.error e => { res := Except.error e, state := u.2.1, trace := u.2.2 }
    | Except.ok _ =>
      match List.lookup serviceName u.2.1.containers with
      | none =>
        { res := Except.error ("container for service " ++ serviceName ++ " not found")
          state := u.2.1, trace := u.2.2 }
      | some cid =>
        let r := env.run (Cmd.logs cid)
        if r.exitOk = false then
          { res := Except.error "failed to get logs"
            state := u.2.1, trace := u.2.2 ++ [Event.ran (Cmd.logs cid)] }
        else
          { res := Except.ok r.output
            state := u.2.1, trace := u.2.2 ++ [Event.ran (Cmd.logs cid)] }

/-- GetContainerID (part_000 lines 172-178): a pure map lookup; a Go map
read of a missing key yields the zero value, the empty string. -/
def DockerComposeProvider.GetContainerID (p : ProviderState) (serviceName : String) : String :=
  (List.lookup serviceName p.containers).getD ""

/-- GetServices (part_000 lines 181-195): nil when not initialized,
otherwise the declared service names. -/
def DockerComposeProvider.GetServices (p : ProviderState) : List String :=
  if p.initialized = false then []
  else p.config.services.map Prod.fst

/-- Resource limits with both fields unset. -/
def resourcesNone : ResourceLimits := { memory := "", cpuShare := "" }

/-- The end-to-end example service of the spec: nginx:stable with one port
mapping 8080:80/tcp and one environment entry. -/
def webService : ServiceConfig :=
  { imageName := "nginx", imageTag := "stable"
    exposedPorts := [{ hostPort := 8080, containerPort := 80, protocol := "tcp" }]
    environment := [("ENV", "production")]
    volumes := [], dependsOn := [], restartPolicy := "always"
    resources := resourcesNone }

/-- The spec's demo topology: project "demo", network "appnet", one service. -/
def demoConfig : ComposeConfig :=
  { services := [("web", webService)], network := "appnet"
    projectName := "demo", envFile := "" }

/-- The demo topology with no network declared. -/
def plainConfig : ComposeConfig := { demoConfig with network := "" }

/-- The compose text generated for demoConfig, written out in full. -/
def demoOutput : String :=
  "version: \"3.4\"\n\nservices:\n  web:\n    image: nginx:stable\n    restart: always\n    ports:\n      - \"8080:80/tcp\"\n    environment:\n      - ENV=production\n\nnetworks:\n  appnet:\n    driver: bridge\n"

/-- Claim C1: with the iteration order over service names and environment
keys fixed, the serializer is a deterministic pure function: any two runs on
the same ComposeConfig that produce a result produce byte-identical text. -/
theorem generateComposeContent_deterministic (config : ComposeConfig)
    (s1 s2 : String)
    (h1 : generateComposeContent config = Except.ok s1)
    (h2 : generateComposeContent config = Except.ok s2) : s1 = s2 := by
  rw [h1] at h2
  exact Except.ok.inj h2

/-- Witness for C1: two runs of the serializer on the demo topology both
produce exactly demoOutput. -/
theorem generateComposeContent_deterministic_witness :
    generateComposeContent demoConfig = Except.ok demoOutput ∧
    demoOutput = demoOutput :=
  ⟨rfl, generateComposeContent_deterministic demoConfig demoOutput demoOutput rfl rfl⟩

/-- Claim C3: a service with no ports, no volumes, empty environment, no
dependencies and both resource-limit fields empty serializes to exactly its
header and image line plus, when the restart policy is non-empty, the
restart line; no ports, volumes, environment, depends_on or deploy block. -/
theorem serviceBlock_minimal (serviceName : String) (sc : ServiceConfig)
    (hports : sc.exposedPorts = []) (hvols : sc.volumes = [])
    (henv : sc.environment = []) (hdeps : sc.dependsOn = [])
    (hmem : sc.resources.memory = "") (hcpu : sc.resources.cpuShare = "") :
    serviceBlock serviceName sc =
      "  " ++ serviceName ++ ":\n"
        ++ "    image: " ++ sc.imageName ++ ":" ++ sc.imageTag ++ "\n"
        ++ (if sc.restartPolicy = "" then ""
            else "    restart: " ++ sc.restartPolicy ++ "\n") := by
  simp [serviceBlock, hports, hvols, henv, hdeps, hmem, hcpu, String.append_empty]

/-- A minimal service used as concrete input: only image and restart. -/
def minimalService : ServiceConfig :=
  { imageName := "redis", imageTag := "7", exposedPorts := [], environment := []
    volumes := [], dependsOn := [], restartPolicy := "always"
    resources := resourcesNone }

/-- Witness for C3: the minimal service serializes to header, image line and
restart line only. -/
theorem serviceBlock_minimal_witness :
    minimalService.exposedPorts = [] ∧
    serviceBlock "cache" minimalService =
      "  " ++ "cache" ++ ":\n"
        ++ "    image: " ++ minimalService.imageName ++ ":" ++ minimalService.imageTag ++ "\n"
        ++ (if minimalService.restartPolicy = "" then ""
            else "    restart: " ++ minimalService.restartPolicy ++ "\n") :=
  ⟨rfl, serviceBlock_minimal "cache" minimalService rfl rfl rfl rfl rfl rfl⟩

/-- Claim C4: the serialized text carries a trailing networks block, naming
the configured network with driver bridge, exactly when the network name is
non-empty; with an empty network name the text is the main section alone. -/
theorem generateComposeContent_network (config : ComposeConfig) :
    (config.network = "" →
      generateComposeContent config = Except.ok (composeMain config)) ∧
    (config.network ≠ "" →
      generateComposeContent config = Except.ok (composeMain config
        ++ ("\nnetworks:\n  " ++ config.network ++ ":\n    driver: bridge\n"))) := by
  constructor
  · intro h
    simp [generateComposeContent, networkBlock, h, String.append_empty]
  · intro h
    simp [generateComposeContent, networkBlock, h]

/-- Witness for C4: the demo topology (network "appnet") gets the trailing
networks block; the same topology with an empty network name does not. -/
theorem generateComposeContent_network_witness :
    plainConfig.network = "" ∧
    generateComposeContent plainConfig = Except.ok (composeMain plainConfig) ∧
    generateComposeContent demoConfig = Except.ok (composeMain demoConfig
      ++ ("\nnetworks:\n  " ++ demoConfig.network ++ ":\n    driver: bridge\n")) :=
  ⟨rfl, (generateComposeContent_network plainConfig).1 rfl,
    (generateComposeContent_network demoConfig).2 (by decide)⟩

/-- Claim C5: serialization is total; for every ComposeConfig, including one
with empty or missing fields, generateComposeContent returns ok, never an
error. -/
theorem generateComposeContent_total (config : ComposeConfig) :
    ∃ content, generateComposeContent config = Except.ok content :=
  ⟨composeMain config ++ networkBlock config, rfl⟩

/-- An environment whose staging always succeeds and whose CLI invocations
all exit successfully with empty output. -/
def envAllOk : Env :=
  { stage := fun _ => Except.ok "/tmp/docker-compose-x/docker-compose.yml"
    run := fun _ => { output := "", exitOk := true } }

/-- Counterexample for C2 as stated: on a freshly created, uninitialized
provider, GetServices does not fail with a "not initialized" precondition
error; its return type carries no error at all and it returns the plain nil
value, indistinguishable from an initialized provider with zero services. -/
theorem getServices_uninit_counterexample :
    newDockerComposeProvider.initialized = false ∧
    DockerComposeProvider.GetServices newDockerComposeProvider = ([] : List String) ∧
    DockerComposeProvider.GetServices
      (DockerComposeProvider.Init newDockerComposeProvider
        { services := [], network := "", projectName := "demo", envFile := "" }).2
      = ([] : List String) :=
  ⟨rfl, rfl, rfl⟩

/-- Amended C2: on an uninitialized provider, Start, Stop, Status and
GetLogs each fail with the "provider not initialized" error and perform no
external event (no staging, no CLI invocation); GetServices instead returns
nil without error and, being a pure accessor, performs no I/O either. -/
theorem uninit_ops_fail_no_io (p : ProviderState) (env : Env)
    (serviceName : String) (h : p.initialized = false) :
    (DockerComposeProvider.Start p env).res = Except.error "provider not initialized" ∧
    (DockerComposeProvider.Start p env).trace = [] ∧
    (DockerComposeProvider.Stop p env).res = Except.error "provider not initialized" ∧
    (DockerComposeProvider.Stop p env).trace = [] ∧
    (DockerComposeProvider.Status p env).res = Except.error "provider not initialized" ∧
    (DockerComposeProvider.Status p env).trace = [] ∧
    (DockerComposeProvider.GetLogs p env serviceName).res = Except.error "provider not initialized" ∧
    (DockerComposeProvider.GetLogs p env serviceName).trace = [] ∧
    DockerComposeProvider.GetServices p = [] := by
  simp [DockerComposeProvider.Start, DockerComposeProvider.Stop,
        DockerComposeProvider.Status, DockerComposeProvider.GetLogs,
        DockerComposeProvider.GetServices, h]

/-- Witness for the amended C2: the fresh provider is uninitialized and its
Start call errors out with an empty event trace. -/
theorem uninit_ops_fail_no_io_witness :
    newDockerComposeProvider.initialized = false ∧
    (DockerComposeProvider.Start newDockerComposeProvider envAllOk).res
      = Except.error "provider not initialized" ∧
    (DockerComposeProvider.Start newDockerComposeProvider envAllOk).trace = [] :=
  ⟨rfl,
   (uninit_ops_fail_no_io newDockerComposeProvider envAllOk "web" rfl).1,
   (uninit_ops_fail_no_io newDockerComposeProvider envAllOk "web" rfl).2.1⟩

/-- Claim C6: on an initialized provider, Status returns an ok map in which
every declared service absent from the refreshed cache is paired with
"not_found" and every declared service whose inspect invocation fails is
paired with "error"; each entry is computed from that service's own cache
lookup and inspect result alone, so sibling failures cannot disturb it. -/
theorem status_isolation (p : ProviderState) (env : Env)
    (hinit : p.initialized = true) :
    (DockerComposeProvider.Status p env).res = Except.ok (statusEntries p.config env) ∧
    ∀ e ∈ p.config.services,
      (List.lookup e.1 (refreshContainers p.config env) = none →
        (e.1, "not_found") ∈ statusEntries p.config env) ∧
      (∀ cid, List.lookup e.1 (refreshContainers p.config env) = some cid →
        (env.run (Cmd.inspect cid)).exitOk = false →
        (e.1, "error") ∈ statusEntries p.config env) := by
  refine ⟨?_, ?_⟩
  · simp [DockerComposeProvider.Status, DockerComposeProvider.updateContainerIDs, hinit]
  · intro e he
    refine ⟨fun hnone => ?_, fun cid hsome hfail => ?_⟩
    · have hm := List.mem_map_of_mem (fun e =>
        (e.1, match List.lookup e.1 (refreshContainers p.config env) with
              | none => "not_found"
              | some cid => inspectStatus env cid)) he
      simpa [statusEntries, hnone] using hm
    · have hm := List.mem_map_of_mem (fun e =>
        (e.1, match List.lookup e.1 (refreshContainers p.config env) with
              | none => "not_found"
              | some cid => inspectStatus env cid)) he
      simpa [statusEntries, hsome, inspectStatus, hfail] using hm

/-- A second service used in the partial-failure scenario. -/
def dbService : ServiceConfig :=
  { imageName := "postgres", imageTag := "13", exposedPorts := []
    environment := [], volumes := [], dependsOn := [], restartPolicy := ""
    resources := resourcesNone }

/-- A two-service topology for the Status partial-failure scenario. -/
def statusConfig : ComposeConfig :=
  { services := [("web", minimalService), ("db", dbService)], network := ""
    projectName := "demo", envFile := "" }

/-- An initialized provider over statusConfig with an empty cache. -/
def statusProvider : ProviderState :=
  { config := statusConfig, initialized := true, containers := [] }

/-- An environment in which the ps query finds a container only for "db"
and every inspect invocation exits non-zero. -/
def statusEnv : Env :=
  { stage := fun _ => Except.ok "/tmp/docker-compose-x/docker-compose.yml"
    run := fun c =>
      match c with
      | Cmd.composePs _ s =>
        if s = "db" then { output := "cid123\n", exitOk := true }
        else { output := "", exitOk := true }
      | Cmd.inspect _ => { output := "", exitOk := false }
      | _ => { output := "", exitOk := true } }

/-- Witness for C6: in the two-service scenario Status returns ok, "web"
(no cached ID) is reported "not_found" and "db" (inspect fails) is reported
"error". -/
theorem status_isolation_witness :
    (DockerComposeProvider.Status statusProvider statusEnv).res
      = Except.ok (statusEntries statusProvider.config statusEnv) ∧
    ("web", "not_found") ∈ statusEntries statusProvider.config statusEnv ∧
    ("db", "error") ∈ statusEntries statusProvider.config statusEnv :=
  ⟨(status_isolation statusProvider statusEnv rfl).1,
   ((status_isolation statusProvider statusEnv rfl).2
     ("web", minimalService) (by decide)).1 (by decide),
   ((status_isolation statusProvider statusEnv rfl).2
     ("db", dbService) (by decide)).2 "cid123" (by decide) (by decide)⟩

/-- Claim C7: a Stop call that returns success leaves the cached identifier
map empty, and GetContainerID afterwards returns the empty string for every
service name, including any service cached before the call. -/
theorem stop_success_clears (p : ProviderState) (env : Env)
    (hok : (DockerComposeProvider.Stop p env).res = Except.ok ()) :
    (DockerComposeProvider.Stop p env).state.containers = [] ∧
    ∀ serviceName, DockerComposeProvider.GetContainerID
      (DockerComposeProvider.Stop p env).state serviceName = "" := by
  cases hinit : p.initialized with
  | false => simp [DockerComposeProvider.Stop, hinit] at hok
  | true =>
    cases hstage : env.stage p.config with
    | error e => simp [DockerComposeProvider.Stop, hinit, hstage] at hok
    | ok composeFile =>
      by_cases hrun : (env.run (Cmd.composeDown p.config.projectName composeFile)).exitOk = false
      · simp [DockerComposeProvider.Stop, hinit, hstage, hrun] at hok
      · refine ⟨?_, fun serviceName => ?_⟩
        · simp [DockerComposeProvider.Stop, hinit, hstage, hrun]
        · simp [DockerComposeProvider.Stop, DockerComposeProvider.GetContainerID,
                hinit, hstage, hrun, List.lookup]

/-- An initialized provider over statusConfig that holds a cached container
ID for "web". -/
def stopProvider : ProviderState :=
  { config := statusConfig, initialized := true, containers := [("web", "c1")] }

/-- Witness for C7: stopping stopProvider in an all-successful environment
returns ok, empties the cache and makes GetContainerID return the empty
string for the previously cached service "web". -/
theorem stop_success_clears_witness :
    (DockerComposeProvider.Stop stopProvider envAllOk).res = Except.ok () ∧
    (DockerComposeProvider.Stop stopProvider envAllOk).state.containers = [] ∧
    DockerComposeProvider.GetContainerID
      (DockerComposeProvider.Stop stopProvider envAllOk).state "web" = "" :=
  ⟨rfl, (stop_success_clears stopProvider envAllOk rfl).1,
    (stop_success_clears stopProvider envAllOk rfl).2 "web"⟩

/-- Claim C8: GetContainerID is a pure cache lookup returning a plain
string, never an error and performing no I/O (its type takes no Env and
yields no trace); on any provider state, for any service name absent from
the cache, it returns the empty string. -/
theorem getContainerID_absent (p : ProviderState) (serviceName : String)
    (habs : List.lookup serviceName p.containers = none) :
    DockerComposeProvider.GetContainerID p serviceName = "" := by
  simp [DockerComposeProvider.GetContainerID, habs]

/-- Witness for C8: the fresh provider has nothing cached for "web" and
GetContainerID returns the empty string for it. -/
theorem getContainerID_absent_witness :
    List.lookup "web" newDockerComposeProvider.containers = none ∧
    DockerComposeProvider.GetContainerID newDockerComposeProvider "web" = "" :=
  ⟨rfl, getContainerID_absent newDockerComposeProvider "web" rfl⟩

/-- Claim C9: re-initialization does not clear the identifier cache.
Initialize always succeeds, stores the new topology and sets the
initialized flag, and leaves the containers map untouched, so
GetContainerID still answers from the identifiers cached under the previous
topology. -/
theorem init_frame (p : ProviderState) (config : ComposeConfig) :
    (DockerComposeProvider.Init p config).1 = Except.ok () ∧
    (DockerComposeProvider.Init p config).2.config = config ∧
    (DockerComposeProvider.Init p config).2.initialized = true ∧
    (DockerComposeProvider.Init p config).2.containers = p.containers ∧
    ∀ serviceName,
      DockerComposeProvider.GetContainerID (DockerComposeProvider.Init p config).2 serviceName
        = DockerComposeProvider.GetContainerID p serviceName :=
  ⟨rfl, rfl, rfl, rfl, fun _ => rfl⟩

/-- Claim C10: the identifier-cache refresh succeeds for every provider
state and environment (per-service query failures are skipped, never
propagated), so the refresh-failure branch in Status is unreachable: on an
initialized provider Status always returns an ok status map. -/
theorem updateContainerIDs_total_status_ok (p : ProviderState) (env : Env) :
    (DockerComposeProvider.updateContainerIDs p env).1 = Except.ok () ∧
    (p.initialized = true →
      (DockerComposeProvider.Status p env).res = Except.ok (statusEntries p.config env)) := by
  refine ⟨rfl, fun hinit => ?_⟩
  simp [DockerComposeProvider.Status, DockerComposeProvider.updateContainerIDs, hinit]

/-- Witness for C10: on the initialized two-service provider, the refresh
returns ok and Status returns the computed status map. -/
theorem updateContainerIDs_total_status_ok_witness :
    (DockerComposeProvider.updateContainerIDs stopProvider statusEnv).1 = Except.ok () ∧
    (DockerComposeProvider.Status stopProvider statusEnv).res
      = Except.ok (statusEntries stopProvider.config statusEnv) :=
  ⟨(updateContainerIDs_total_status_ok stopProvider statusEnv).1,
   (updateContainerIDs_total_status_ok stopProvider statusEnv).2 rfl⟩
